import Mathlib

/-!
Verification of the saferoute-ai dashboard core: a shallow embedding of the
sensor state holder, the assessment orchestrator and the simulation driver
found in src/App.tsx, src/geminiService.ts and src/types.ts, followed by
theorems about the embedded operations.

JavaScript numbers are modelled as rationals, the external Gemini call as an
explicit outcome parameter, and the wall clock as an explicit Nat parameter.
-/

namespace SafeRoute

/-- Driving mode enumeration (src/types.ts, enum DrivingMode). -/
inductive DrivingMode where
  | TRAFFIC
  | HIGHWAY
  | DEPOT
deriving DecidableEq

/-- Risk level enumeration (src/types.ts, enum RiskLevel); at runtime its
members are the strings LOW, MEDIUM and HIGH. -/
inductive RiskLevel where
  | LOW
  | MEDIUM
  | HIGH
deriving DecidableEq

/-- The runtime string value of a RiskLevel enum member (src/types.ts). -/
def RiskLevel.str : RiskLevel → String
  | .LOW => "LOW"
  | .MEDIUM => "MEDIUM"
  | .HIGH => "HIGH"

/-- SensorData (src/types.ts): four numeric channels plus the driving mode. -/
structure SensorData where
  leftDistance : ℚ
  rightDistance : ℚ
  closingSpeed : ℚ
  vehicleSpeed : ℚ
  drivingMode : DrivingMode
deriving DecidableEq

/-- AssessmentResult (src/types.ts). The riskLevel field is declared there
with the RiskLevel enum type, but at runtime assessSafetyRisk stores whatever
string the engine response carried (the TypeScript cast `as RiskLevel` checks
nothing), so the embedding types the field as String; whether the stored
string always is an enum value is settled by a theorem below. -/
structure AssessmentResult where
  riskLevel : String
  explanation : String
  timestamp : Nat
  data : SensorData
deriving DecidableEq

/-- The body of a successful generateContent response, characterized at the
level src/geminiService.ts reads it: response.text may be absent or may be
the empty string; a nonempty text either fails JSON.parse or parses to a
value whose riskLevel and explanation members are the given optional strings
(an absent member is none). -/
inductive ResponseBody where
  | absentText
  | emptyText
  | unparsable
  | json (riskLevel : Option String) (explanation : Option String)
deriving DecidableEq

/-- Outcome of the ai.models.generateContent call (the external engine):
either the awaited call throws (network or transport failure) or it returns
a response with the given body. -/
inductive EngineOutcome where
  | transportError
  | success (body : ResponseBody)
deriving DecidableEq

/-- A parsed top-level JSON value as the service accesses it: its riskLevel
and explanation members, none when absent. -/
structure ParsedJson where
  riskLevel : Option String
  explanation : Option String
deriving DecidableEq

/-- Models line 57 of src/geminiService.ts, JSON.parse applied to the
response text with the fallback text of a pair of braces: absent or empty
response text falls back to that literal, which parses to the empty object;
nonempty unparsable text makes JSON.parse throw. -/
def parseBody : ResponseBody → Except String ParsedJson
  | .absentText => .ok ⟨none, none⟩
  | .emptyText => .ok ⟨none, none⟩
  | .unparsable => .error "SyntaxError"
  | .json rl ex => .ok ⟨rl, ex⟩

/-- JavaScript short-circuit defaulting for an optionally present string
field, as on lines 60-61 of src/geminiService.ts: the default when the field
is undefined or the empty string (both falsy), the field itself otherwise. -/
def jsOrElse (x : Option String) (d : String) : String :=
  match x with
  | none => d
  | some s => if s = "" then d else s

/-- assessSafetyRisk (src/geminiService.ts lines 23-69), with the engine
call outcome and the current clock passed explicitly. Any exception inside
the try block — the engine call itself or JSON.parse — is caught and
rethrown as the single error message of line 67; on a parsed body the result
is assembled with the per-field defaults of lines 60-61. -/
def assessSafetyRisk (data : SensorData) (eng : EngineOutcome) (now : Nat) :
    Except String AssessmentResult :=
  match eng with
  | .transportError => .error "Failed to assess safety risk."
  | .success body =>
    match parseBody body with
    | .error _ => .error "Failed to assess safety risk."
    | .ok j =>
      .ok { riskLevel := jsOrElse j.riskLevel "LOW"
            explanation := jsOrElse j.explanation "Unable to generate assessment."
            timestamp := now
            data := data }

/-- The orchestrator state held by the App component (src/App.tsx lines
33-43): the current sensor reading, the current assessment, the history and
the busy flag. -/
structure AppState where
  sensorData : SensorData
  assessment : Option AssessmentResult
  history : List AssessmentResult
  isAnalyzing : Bool
deriving DecidableEq

/-- The initial component state (src/App.tsx lines 33-43). -/
def initState : AppState :=
  { sensorData := { leftDistance := 120, rightDistance := 115,
                    closingSpeed := 1/2, vehicleSpeed := 45,
                    drivingMode := .TRAFFIC }
    assessment := none
    history := []
    isAnalyzing := false }

/-- Observable effects of one handleAssessment call: the component state once
the call settles, the value the promise returned by handleAssessment rejects
with (none when it resolves normally), the error logged by the catch block,
and the risk level passed to playAlertTone when that call is made. -/
structure HAOutput where
  state : AppState
  rejectedWith : Option String
  loggedError : Option String
  alertTone : Option String
deriving DecidableEq

/-- handleAssessment (src/App.tsx lines 90-106). On success it stores the
result as the current assessment, prepends it to the history truncated to 20
entries, and invokes playAlertTone whenever the risk level differs from LOW;
on failure the catch block logs the error and touches neither assessment nor
history; the finally block clears the busy flag either way. The catch block
swallows the error, so the promise returned to the caller never rejects. -/
def handleAssessment (st : AppState) (data : SensorData) (eng : EngineOutcome)
    (now : Nat) : HAOutput :=
  match assessSafetyRisk data eng now with
  | .ok result =>
    { state := { st with
        assessment := some result
        history := (result :: st.history).take 20
        isAnalyzing := false }
      rejectedWith := none
      loggedError := none
      alertTone := if result.riskLevel = "LOW" then none else some result.riskLevel }
  | .error e =>
    { state := { st with isAnalyzing := false }
      rejectedWith := none
      loggedError := some e
      alertTone := none }

/-- One tick of the auto-simulation effect (src/App.tsx lines 117-128), with
the four Math.random draws passed explicitly. Each numeric channel receives
its bounded random perturbation and is clamped with Math.max and Math.min
exactly as in the source; the driving mode is carried over by the object
spread. -/
def simTick (prev : SensorData) (r1 r2 r3 r4 : ℚ) : SensorData :=
  { prev with
    leftDistance := max 10 (min 300 (prev.leftDistance + (r1 * 40 - 20)))
    rightDistance := max 10 (min 300 (prev.rightDistance + (r2 * 40 - 20)))
    closingSpeed := max 0 (min 15 (prev.closingSpeed + (r3 * 4 - 2)))
    vehicleSpeed := max 0 (min 100 (prev.vehicleSpeed + (r4 * 15 - 7))) }

/-- A field identifier together with the new value handed to updateSensor
(src/App.tsx lines 134-136); numeric fields receive an arbitrary number, the
mode field a mode. -/
inductive SensorUpdate where
  | leftDistance (v : ℚ)
  | rightDistance (v : ℚ)
  | closingSpeed (v : ℚ)
  | vehicleSpeed (v : ℚ)
  | drivingMode (m : DrivingMode)
deriving DecidableEq

/-- updateSensor (src/App.tsx lines 134-136): replaces the named field with
the supplied value through an object spread; no validation is applied to the
value. -/
def updateSensor (prev : SensorData) (u : SensorUpdate) : SensorData :=
  match u with
  | .leftDistance v => { prev with leftDistance := v }
  | .rightDistance v => { prev with rightDistance := v }
  | .closingSpeed v => { prev with closingSpeed := v }
  | .vehicleSpeed v => { prev with vehicleSpeed := v }
  | .drivingMode m => { prev with drivingMode := m }

/-- One orchestration call, described by the reading submitted, the outcome
of the engine call and the clock at completion. -/
abbrev AssessCall := SensorData × EngineOutcome × Nat

/-- Iterated orchestration: the component state after a sequence of
handleAssessment calls, each settling before the next is issued. -/
def runAssessments (st : AppState) (calls : List AssessCall) : AppState :=
  calls.foldl (fun s c => (handleAssessment s c.1 c.2.1 c.2.2).state) st

/-- The assessment results produced by the successful calls of a sequence,
in call order. -/
def resultsOf (calls : List AssessCall) : List AssessmentResult :=
  calls.filterMap (fun c => (assessSafetyRisk c.1 c.2.1 c.2.2).toOption)

/-! Sample values used by closed theorems. -/

/-- A sample low-risk result. -/
def sampleResult : AssessmentResult :=
  { riskLevel := "LOW", explanation := "clear", timestamp := 0,
    data := initState.sensorData }

/-- A sample state mid-session: one stored assessment and nonempty history. -/
def st1 : AppState :=
  { initState with assessment := some sampleResult, history := [sampleResult] }

/-- C4: for every pre-tick reading and every choice of the four random draws,
the reading produced by a simulation tick has each numeric channel within
its simulation bound: distances in the closed interval from 10 to 300,
closing speed from 0 to 15, vehicle speed from 0 to 100. -/
theorem simTick_bounds (prev : SensorData) (r1 r2 r3 r4 : ℚ) :
    10 ≤ (simTick prev r1 r2 r3 r4).leftDistance
    ∧ (simTick prev r1 r2 r3 r4).leftDistance ≤ 300
    ∧ 10 ≤ (simTick prev r1 r2 r3 r4).rightDistance
    ∧ (simTick prev r1 r2 r3 r4).rightDistance ≤ 300
    ∧ 0 ≤ (simTick prev r1 r2 r3 r4).closingSpeed
    ∧ (simTick prev r1 r2 r3 r4).closingSpeed ≤ 15
    ∧ 0 ≤ (simTick prev r1 r2 r3 r4).vehicleSpeed
    ∧ (simTick prev r1 r2 r3 r4).vehicleSpeed ≤ 100 := by
  simp only [simTick]
  refine ⟨le_max_left _ _, max_le (by norm_num) (min_le_left _ _),
          le_max_left _ _, max_le (by norm_num) (min_le_left _ _),
          le_max_left _ _, max_le (by norm_num) (min_le_left _ _),
          le_max_left _ _, max_le (by norm_num) (min_le_left _ _)⟩

/-- C7: a simulation tick changes only the four numeric channels; the
driving mode of the post-tick reading equals the pre-tick driving mode. -/
theorem simTick_preserves_mode (prev : SensorData) (r1 r2 r3 r4 : ℚ) :
    (simTick prev r1 r2 r3 r4).drivingMode = prev.drivingMode := rfl

/-- C8: for every field identifier and every new value — including values
outside any UI range, since no validation is applied — updateSensor replaces
exactly the named field with the value and leaves every other field of the
reading unchanged. -/
theorem updateSensor_exact (prev : SensorData) (v : ℚ) (m : DrivingMode) :
    ((updateSensor prev (.leftDistance v)).leftDistance = v
      ∧ (updateSensor prev (.leftDistance v)).rightDistance = prev.rightDistance
      ∧ (updateSensor prev (.leftDistance v)).closingSpeed = prev.closingSpeed
      ∧ (updateSensor prev (.leftDistance v)).vehicleSpeed = prev.vehicleSpeed
      ∧ (updateSensor prev (.leftDistance v)).drivingMode = prev.drivingMode)
    ∧ ((updateSensor prev (.rightDistance v)).rightDistance = v
      ∧ (updateSensor prev (.rightDistance v)).leftDistance = prev.leftDistance
      ∧ (updateSensor prev (.rightDistance v)).closingSpeed = prev.closingSpeed
      ∧ (updateSensor prev (.rightDistance v)).vehicleSpeed = prev.vehicleSpeed
      ∧ (updateSensor prev (.rightDistance v)).drivingMode = prev.drivingMode)
    ∧ ((updateSensor prev (.closingSpeed v)).closingSpeed = v
      ∧ (updateSensor prev (.closingSpeed v)).leftDistance = prev.leftDistance
      ∧ (updateSensor prev (.closingSpeed v)).rightDistance = prev.rightDistance
      ∧ (updateSensor prev (.closingSpeed v)).vehicleSpeed = prev.vehicleSpeed
      ∧ (updateSensor prev (.closingSpeed v)).drivingMode = prev.drivingMode)
    ∧ ((updateSensor prev (.vehicleSpeed v)).vehicleSpeed = v
      ∧ (updateSensor prev (.vehicleSpeed v)).leftDistance = prev.leftDistance
      ∧ (updateSensor prev (.vehicleSpeed v)).rightDistance = prev.rightDistance
      ∧ (updateSensor prev (.vehicleSpeed v)).closingSpeed = prev.closingSpeed
      ∧ (updateSensor prev (.vehicleSpeed v)).drivingMode = prev.drivingMode)
    ∧ ((updateSensor prev (.drivingMode m)).drivingMode = m
      ∧ (updateSensor prev (.drivingMode m)).leftDistance = prev.leftDistance
      ∧ (updateSensor prev (.drivingMode m)).rightDistance = prev.rightDistance
      ∧ (updateSensor prev (.drivingMode m)).closingSpeed = prev.closingSpeed
      ∧ (updateSensor prev (.drivingMode m)).vehicleSpeed = prev.vehicleSpeed) :=
  ⟨⟨rfl, rfl, rfl, rfl, rfl⟩, ⟨rfl, rfl, rfl, rfl, rfl⟩,
   ⟨rfl, rfl, rfl, rfl, rfl⟩, ⟨rfl, rfl, rfl, rfl, rfl⟩,
   ⟨rfl, rfl, rfl, rfl, rfl⟩⟩

/-- C10: when the engine call succeeds but the response text is absent or
empty, assess raises no error: the empty body is treated as the empty object
and the default result is produced, identical to the response whose parsed
object is missing both fields. -/
theorem assess_empty_text_default (data : SensorData) (now : Nat) :
    assessSafetyRisk data (.success .absentText) now
      = assessSafetyRisk data (.success (.json none none)) now
    ∧ assessSafetyRisk data (.success .emptyText) now
      = assessSafetyRisk data (.success (.json none none)) now
    ∧ assessSafetyRisk data (.success .emptyText) now
      = .ok { riskLevel := "LOW", explanation := "Unable to generate assessment.",
              timestamp := now, data := data } :=
  ⟨rfl, rfl, rfl⟩

/-- C2 counterexample: a response that parses but is missing only the
explanation field keeps the engine risk level HIGH — the claim that every
response missing riskLevel or explanation yields risk level LOW together
with the fallback text is false at this input. -/
theorem assess_missing_field_low_cex :
    (assessSafetyRisk initState.sensorData
        (.success (.json (some "HIGH") none)) 2).toOption.map
        (fun r => r.riskLevel) ≠ some "LOW" := by
  decide

/-- C2 (amended): every response that parses completes without error, and
each field missing from it defaults independently — a missing riskLevel
gives LOW, a missing explanation gives the fallback text; in particular the
empty object gives the full default result. -/
theorem assess_missing_fields_default (data : SensorData) (now : Nat)
    (rl ex : Option String) :
    ∃ r, assessSafetyRisk data (.success (.json rl ex)) now = .ok r
      ∧ (rl = none → r.riskLevel = "LOW")
      ∧ (ex = none → r.explanation = "Unable to generate assessment.")
      ∧ (rl = none → ex = none →
          r = { riskLevel := "LOW", explanation := "Unable to generate assessment.",
                timestamp := now, data := data }) := by
  refine ⟨_, rfl, fun h => ?_, fun h => ?_, fun h1 h2 => ?_⟩
  · subst h; rfl
  · subst h; rfl
  · subst h1; subst h2; rfl

/-- C2 witness: the amended theorem instantiated at the empty object. -/
theorem assess_missing_fields_default_witness :
    ∃ r, assessSafetyRisk initState.sensorData (.success (.json none none)) 4 = .ok r
      ∧ ((none : Option String) = none → r.riskLevel = "LOW")
      ∧ ((none : Option String) = none → r.explanation = "Unable to generate assessment.")
      ∧ ((none : Option String) = none → (none : Option String) = none →
          r = { riskLevel := "LOW", explanation := "Unable to generate assessment.",
                timestamp := 4, data := initState.sensorData }) :=
  assess_missing_fields_default initState.sensorData 4 none none

/-- C5 evaluation: an engine response carrying the riskLevel string CRITICAL
completes assess successfully and is stored verbatim — the produced result
has a risk level outside the set {LOW, MEDIUM, HIGH}, contradicting the enum
type declared for the field in src/types.ts; the TypeScript cast on line 60
of src/geminiService.ts validates nothing. -/
theorem assess_riskLevel_unvalidated :
    (assessSafetyRisk initState.sensorData
        (.success (.json (some "CRITICAL") (some "sensors degraded"))) 9).toOption.map
        (fun r => r.riskLevel) = some "CRITICAL"
    ∧ ¬ ∃ l : RiskLevel, some l.str =
        (assessSafetyRisk initState.sensorData
          (.success (.json (some "CRITICAL") (some "sensors degraded"))) 9).toOption.map
          (fun r => r.riskLevel) := by
  refine ⟨rfl, ?_⟩
  rintro ⟨l, hl⟩
  cases l <;> exact absurd hl (by decide)

/-- C1 counterexample: at a concrete failing call (transport error) the
promise returned by the orchestrator resolves rather than rejects — the
error is not propagated to the caller of the assess operation, refuting the
rejection clause of the claim (the other clauses hold, see the amended
theorem). -/
theorem assess_failure_not_propagated :
    ¬ ((handleAssessment st1 initState.sensorData .transportError 7).rejectedWith
        ≠ none) :=
  fun h => h rfl

/-- C1 (amended): for every failing classification call — transport error or
unparsable top-level response — the inner service call rejects with its
error, which the orchestrator catches and logs instead of re-propagating to
its caller; the busy flag is cleared and no state other than the busy flag
changes: assessment, history and sensor reading stay exactly as before, and
no alert is signalled. -/
theorem assess_failure_isolation (st : AppState) (data : SensorData)
    (eng : EngineOutcome) (now : Nat)
    (hfail : eng = .transportError ∨ eng = .success .unparsable) :
    assessSafetyRisk data eng now = .error "Failed to assess safety risk."
    ∧ (handleAssessment st data eng now).rejectedWith = none
    ∧ (handleAssessment st data eng now).loggedError
        = some "Failed to assess safety risk."
    ∧ (handleAssessment st data eng now).state = { st with isAnalyzing := false }
    ∧ (handleAssessment st data eng now).alertTone = none := by
  rcases hfail with h | h <;> subst h <;> exact ⟨rfl, rfl, rfl, rfl, rfl⟩

/-- C1 witness: the amended theorem instantiated at a transport error from a
mid-session state. -/
theorem assess_failure_isolation_witness :
    ((EngineOutcome.transportError = .transportError
        ∨ EngineOutcome.transportError = .success .unparsable)
      ∧ assessSafetyRisk initState.sensorData .transportError 3
          = .error "Failed to assess safety risk."
      ∧ (handleAssessment st1 initState.sensorData .transportError 3).state
          = { st1 with isAnalyzing := false }) :=
  ⟨Or.inl rfl,
   (assess_failure_isolation st1 initState.sensorData .transportError 3 (Or.inl rfl)).1,
   (assess_failure_isolation st1 initState.sensorData .transportError 3
      (Or.inl rfl)).2.2.2.1⟩

/-- C6: for every successfully completed assess, the orchestrator invokes
the alert tone exactly when the risk level of the produced result differs
from LOW, passing that risk level along; a LOW result triggers no alert. -/
theorem assess_alert_iff_not_low (st : AppState) (data : SensorData)
    (eng : EngineOutcome) (now : Nat) (r : AssessmentResult)
    (hok : assessSafetyRisk data eng now = .ok r) :
    (r.riskLevel ≠ "LOW" →
        (handleAssessment st data eng now).alertTone = some r.riskLevel)
    ∧ (r.riskLevel = "LOW" → (handleAssessment st data eng now).alertTone = none) := by
  unfold handleAssessment
  rw [hok]
  exact ⟨fun h => by simp [h], fun h => by simp [h]⟩

/-- C6 witness: a HIGH response from the initial state signals the alert
with the level HIGH. -/
theorem assess_alert_iff_not_low_witness :
    (assessSafetyRisk initState.sensorData
        (.success (.json (some "HIGH") (some "close clearance"))) 6
      = .ok { riskLevel := "HIGH", explanation := "close clearance",
              timestamp := 6, data := initState.sensorData })
    ∧ (handleAssessment initState initState.sensorData
        (.success (.json (some "HIGH") (some "close clearance"))) 6).alertTone
      = some "HIGH" :=
  ⟨rfl,
   (assess_alert_iff_not_low initState initState.sensorData
      (.success (.json (some "HIGH") (some "close clearance"))) 6
      { riskLevel := "HIGH", explanation := "close clearance",
        timestamp := 6, data := initState.sensorData } rfl).1 (by decide)⟩

/-- C9: after every successfully completed assess, the current assessment
and the head of the history are the same result object. -/
theorem assess_current_is_head (st : AppState) (data : SensorData)
    (eng : EngineOutcome) (now : Nat) (r : AssessmentResult)
    (hok : assessSafetyRisk data eng now = .ok r) :
    (handleAssessment st data eng now).state.assessment = some r
    ∧ (handleAssessment st data eng now).state.history.head? = some r := by
  unfold handleAssessment
  rw [hok]
  exact ⟨rfl, rfl⟩

/-- C9 witness: one successful call from the initial state stores the same
result as current assessment and as head of the history. -/
theorem assess_current_is_head_witness :
    (assessSafetyRisk initState.sensorData
        (.success (.json (some "LOW") (some "clear"))) 8
      = .ok { riskLevel := "LOW", explanation := "clear",
              timestamp := 8, data := initState.sensorData })
    ∧ (handleAssessment initState initState.sensorData
        (.success (.json (some "LOW") (some "clear"))) 8).state.assessment
      = some { riskLevel := "LOW", explanation := "clear",
               timestamp := 8, data := initState.sensorData } :=
  ⟨rfl,
   (assess_current_is_head initState initState.sensorData
      (.success (.json (some "LOW") (some "clear"))) 8
      { riskLevel := "LOW", explanation := "clear",
        timestamp := 8, data := initState.sensorData } rfl).1⟩

/-- Truncating the second summand of an append before a truncating take of
the whole append changes nothing. -/
theorem take_append_take {α : Type} (n : ℕ) (a b : List α) :
    (a ++ b.take n).take n = (a ++ b).take n := by
  rw [List.take_append_eq_append_take, List.take_append_eq_append_take,
    List.take_take, Nat.min_eq_left (Nat.sub_le n a.length)]

/-- Folding prepend-then-truncate over a list of results, from a start of at
most 20 entries, yields the reversed results in front of the start, cut to
20 entries. -/
theorem histFold_eq (rs : List AssessmentResult) :
    ∀ h0 : List AssessmentResult, h0.length ≤ 20 →
      rs.foldl (fun h r => (r :: h).take 20) h0 = (rs.reverse ++ h0).take 20 := by
  induction rs with
  | nil =>
    intro h0 hlen
    simp [List.take_of_length_le hlen]
  | cons r rs ih =>
    intro h0 hlen
    have h1 : ((r :: h0).take 20).length ≤ 20 := by
      simp [List.length_take]
    rw [List.foldl_cons, ih _ h1, take_append_take, List.reverse_cons,
      List.append_assoc, List.singleton_append]

/-- When every call of a sequence succeeds, the history evolves by folding
prepend-then-truncate over the produced results. -/
theorem runAssessments_history (calls : List AssessCall) :
    ∀ st : AppState,
      (∀ c ∈ calls, (assessSafetyRisk c.1 c.2.1 c.2.2).isOk = true) →
      (runAssessments st calls).history =
        (resultsOf calls).foldl (fun h r => (r :: h).take 20) st.history := by
  induction calls with
  | nil => intro st _; rfl
  | cons c cs ih =>
    intro st hall
    have hc : (assessSafetyRisk c.1 c.2.1 c.2.2).isOk = true :=
      hall c (List.mem_cons_self c cs)
    cases heq : assessSafetyRisk c.1 c.2.1 c.2.2 with
    | error e => rw [heq] at hc; exact Bool.noConfusion hc
    | ok r =>
      have hstep : runAssessments st (c :: cs)
          = runAssessments ((handleAssessment st c.1 c.2.1 c.2.2).state) cs := rfl
      have hstate : (handleAssessment st c.1 c.2.1 c.2.2).state.history
          = (r :: st.history).take 20 := by
        unfold handleAssessment; rw [heq]
      have hres : resultsOf (c :: cs) = r :: resultsOf cs := by
        unfold resultsOf
        rw [List.filterMap_cons]
        simp [heq, Except.toOption]
      rw [hstep, ih _ (fun d hd => hall d (List.mem_cons_of_mem c hd)), hstate,
        hres, List.foldl_cons]

/-- When every call of a sequence succeeds, every call yields a result, so
the produced results are as many as the calls. -/
theorem resultsOf_length (calls : List AssessCall)
    (hok : ∀ c ∈ calls, (assessSafetyRisk c.1 c.2.1 c.2.2).isOk = true) :
    (resultsOf calls).length = calls.length := by
  induction calls with
  | nil => rfl
  | cons c cs ih =>
    have hc : (assessSafetyRisk c.1 c.2.1 c.2.2).isOk = true :=
      hok c (List.mem_cons_self c cs)
    cases heq : assessSafetyRisk c.1 c.2.1 c.2.2 with
    | error e => rw [heq] at hc; exact Bool.noConfusion hc
    | ok r =>
      have hres : resultsOf (c :: cs) = r :: resultsOf cs := by
        unfold resultsOf
        rw [List.filterMap_cons]
        simp [heq, Except.toOption]
      rw [hres]
      simp [ih (fun d hd => hok d (List.mem_cons_of_mem c hd))]

/-- C3: for every sequence of more than 20 calls that all succeed, run from
the initial (empty-history) state, the final history is exactly the 20 most
recent results in newest-first order and has length 20; moreover after any
prefix of the sequence the history never exceeds 20 entries. -/
theorem history_bound (calls : List AssessCall)
    (hok : ∀ c ∈ calls, (assessSafetyRisk c.1 c.2.1 c.2.2).isOk = true)
    (hlen : 20 < calls.length) :
    (runAssessments initState calls).history = (resultsOf calls).reverse.take 20
    ∧ (runAssessments initState calls).history.length = 20
    ∧ ∀ n, ((runAssessments initState (calls.take n)).history).length ≤ 20 := by
  have hmain : (runAssessments initState calls).history
      = (resultsOf calls).reverse.take 20 := by
    rw [runAssessments_history calls initState hok,
      histFold_eq (resultsOf calls) initState.history (by simp [initState]),
      show initState.history = [] from rfl, List.append_nil]
  refine ⟨hmain, ?_, ?_⟩
  · rw [hmain]
    simp only [List.length_take, List.length_reverse,
      resultsOf_length calls hok]
    exact Nat.min_eq_left (Nat.le_of_lt hlen)
  · intro n
    have hokn : ∀ c ∈ calls.take n, (assessSafetyRisk c.1 c.2.1 c.2.2).isOk = true :=
      fun c hc => hok c (List.mem_of_mem_take hc)
    rw [runAssessments_history (calls.take n) initState hokn,
      histFold_eq (resultsOf (calls.take n)) initState.history (by simp [initState])]
    simp [List.length_take]

/-- A concrete sequence of 21 successful calls, each submitting the initial
reading and receiving a LOW verdict. -/
def calls21 : List AssessCall :=
  (List.range 21).map
    (fun i => (initState.sensorData,
               EngineOutcome.success (.json (some "LOW") (some "ok")), i))

/-- C3 witness: the history-bound theorem instantiated at 21 concrete
successful calls. -/
theorem history_bound_witness :
    (∀ c ∈ calls21, (assessSafetyRisk c.1 c.2.1 c.2.2).isOk = true)
    ∧ 20 < calls21.length
    ∧ (runAssessments initState calls21).history
        = (resultsOf calls21).reverse.take 20 :=
  ⟨by decide, by decide, (history_bound calls21 (by decide) (by decide)).1⟩

end SafeRoute
